import Mathlib

/-!
Shallow embedding of the `tagger` crate (`src/tagger/src/lib.rs`) of the
`tagboat` repository: a SQLite-backed file-tagging index with three tables
(`files`, `tags`, `file_tags`) accessed through the `App` façade.

The database state is modelled explicitly; SQLite stores dynamically typed
values, so non-key columns hold `SqlValue`s and decoding into the Rust
`File` struct is modelled separately, mirroring the `row.get(...)` calls.
Environmental storage failures (disk errors and the like) are injected
through an explicit `Option String` parameter on the operations whose Rust
counterparts consult the storage engine's error channel; `none` is the
normal path.  A Rust `panic!` is modelled by the `POutcome.panic`
constructor, which is distinct from any returned value.
-/

deriving instance DecidableEq for Except

/-- A dynamically typed SQLite value, as stored in a column. -/
inductive SqlValue where
  | null
  | integer (i : Int)
  | text (s : String)
deriving DecidableEq, Repr

/-- Newtype for file identifiers, mirroring `pub struct FileID(i64)`. -/
structure FileID where
  val : Int
deriving DecidableEq, Repr

/-- Newtype for tag identifiers, mirroring `pub struct TagID(i64)`. -/
structure TagID where
  val : Int
deriving DecidableEq, Repr

/-- The crate's error enum `TaggerError`; the wrapped `rusqlite::Error`
is modelled by its message string. -/
inductive TaggerError where
  | DirectoryError
  | DatabaseError (e : String)
deriving DecidableEq, Repr

/-- Outcome of running code that may `panic!`: either a value or a Rust
panic with its message.  A panic aborts the process, so it is distinct
from every returned value. -/
inductive POutcome (α : Type) where
  | ok (a : α)
  | panic (msg : String)
deriving DecidableEq, Repr

/-- The decoded Rust struct `File`.  Timestamps are modelled by their
stored text representation (rusqlite's `time` feature stores
`OffsetDateTime` as text). -/
structure File where
  id : FileID
  file_name : String
  last_seen_at : Option String
  orphaned_at : Option String
  updated_at : String
  created_at : String
deriving DecidableEq, Repr

/-- A raw row of the `files` table.  `id` is the integer primary key
(SQLite rowid), which is always an integer; the remaining columns hold
dynamically typed values. -/
structure RawFileRow where
  id : Int
  filename : SqlValue
  last_seen_at : SqlValue
  orphaned_at : SqlValue
  updated_at : SqlValue
  created_at : SqlValue
deriving DecidableEq, Repr

/-- A raw row of the `tags` table. -/
structure TagRow where
  id : Int
  name : SqlValue
deriving DecidableEq, Repr

/-- A row of the `file_tags` association table. -/
structure AssocRow where
  file_id : Int
  tag_id : Int
deriving DecidableEq, Repr

/-- The database state behind the `App` façade: the three tables, in
rowid (insertion) order, plus the current clock reading used for
timestamp column defaults. -/
structure DB where
  files : List RawFileRow
  tags : List TagRow
  file_tags : List AssocRow
  now : String
deriving DecidableEq, Repr

/-- The freshly migrated empty database. -/
def emptyDB : DB := { files := [], tags := [], file_tags := [], now := "2024-01-01 00:00:00" }

/-- Maximum of a list of rowids, `0` for the empty table. -/
def maxRowId (ids : List Int) : Int := ids.foldr max 0

/-- Largest rowid currently in the `files` table. -/
def maxFileId (db : DB) : Int := maxRowId (db.files.map RawFileRow.id)

/-- Largest rowid currently in the `tags` table. -/
def maxTagId (db : DB) : Int := maxRowId (db.tags.map TagRow.id)

/-- Modelled from the spec: the migration scripts defining the schema are
not part of the sources, so the engine's surrogate-key assignment is
modelled from the spec's "identifier (opaque integer surrogate key)" as
SQLite's rowid rule for tables without `AUTOINCREMENT`: one more than the
largest rowid present (rows are never deleted here). -/
def nextFileRowId (db : DB) : Int := maxFileId db + 1

/-- Modelled from the spec: rowid assignment for the `tags` table, as
`nextFileRowId`. -/
def nextTagRowId (db : DB) : Int := maxTagId db + 1

/-- Modelled from the spec: the row inserted by
`INSERT INTO files (filename) VALUES (?1)`.  The schema is not in the
sources; per the spec's data model the optional `last_seen_at` and
`orphaned_at` columns default to NULL and the required `updated_at` and
`created_at` columns default to the current timestamp. -/
def newFileRow (db : DB) (filename : String) : RawFileRow :=
  { id := nextFileRowId db
    filename := SqlValue.text filename
    last_seen_at := SqlValue.null
    orphaned_at := SqlValue.null
    updated_at := SqlValue.text db.now
    created_at := SqlValue.text db.now }

/-- The row inserted by `INSERT INTO tags (name) VALUES (?1)`. -/
def newTagRow (db : DB) (tag_name : String) : TagRow :=
  { id := nextTagRowId db, name := SqlValue.text tag_name }

/-- `App::create_file` (lib.rs lines 35-40): inserts a `files` row and
returns `last_insert_rowid()` as a `FileID`.  `err` injects an
environmental failure of `connection.execute`, which the `?` operator
converts into `TaggerError::DatabaseError`; the schema has no uniqueness
constraint, so absent such a failure the insert succeeds. -/
def create_file (db : DB) (filename : String) (err : Option String) :
    Except TaggerError (DB × FileID) :=
  match err with
  | some e => Except.error (TaggerError.DatabaseError e)
  | none =>
      Except.ok ({ db with files := db.files ++ [newFileRow db filename] },
        FileID.mk (nextFileRowId db))

/-- `App::get_file` (lib.rs lines 42-52): `SELECT id FROM files WHERE
filename = ?1` through `query_row`, which yields the first matching row.
No row gives `Err(QueryReturnedNoRows)`, mapped to `None`; any other
engine error (injected via `err`) is met with `panic!("SQL Error, {e}")`. -/
def get_file (db : DB) (filename : String) (err : Option String) :
    POutcome (Option FileID) :=
  match err with
  | some e => POutcome.panic ("SQL Error, " ++ e)
  | none =>
      match db.files.find? (fun r => decide (r.filename = SqlValue.text filename)) with
      | some r => POutcome.ok (some (FileID.mk r.id))
      | none => POutcome.ok none

/-- `App::create_tag` (lib.rs lines 54-66): `INSERT INTO tags (name)
VALUES (?1) RETURNING id` through `query_row`; any engine error is
returned as `Err(TaggerError::DatabaseError(e))`. -/
def create_tag (db : DB) (tag_name : String) (err : Option String) :
    Except TaggerError (DB × TagID) :=
  match err with
  | some e => Except.error (TaggerError.DatabaseError e)
  | none =>
      Except.ok ({ db with tags := db.tags ++ [newTagRow db tag_name] },
        TagID.mk (nextTagRowId db))

/-- `App::get_tag` (lib.rs lines 68-78): same shape as `get_file` over
the `tags` table. -/
def get_tag (db : DB) (tag_name : String) (err : Option String) :
    POutcome (Option TagID) :=
  match err with
  | some e => POutcome.panic ("SQL Error, " ++ e)
  | none =>
      match db.tags.find? (fun r => decide (r.name = SqlValue.text tag_name)) with
      | some r => POutcome.ok (some (TagID.mk r.id))
      | none => POutcome.ok none

/-- `App::tag_file` (lib.rs lines 80-89): inserts one `file_tags` row.
The function returns `()`; when the insert fails (injected via `err`)
it prints and then `panic!`s, so there is no error-returning channel —
the return type is `POutcome DB`, not `Except`. -/
def tag_file (db : DB) (tag : TagID) (file : FileID) (err : Option String) :
    POutcome DB :=
  match err with
  | some e => POutcome.panic ("SQL Error, " ++ e)
  | none =>
      POutcome.ok { db with
        file_tags := db.file_tags ++ [{ file_id := file.val, tag_id := tag.val }] }

/-- Decoding a column into a Rust `String` (`row.get` with a TEXT
expectation): succeeds exactly on text values. -/
def decodeText : SqlValue → Option String
  | SqlValue.text s => some s
  | _ => none

/-- Modelled from the spec: decoding a required timestamp column into
`OffsetDateTime`.  The schema (migrations) is not in the sources; per the
spec these columns are required, stored as text, and decoding any
non-text value fails. -/
def decodeTimeReq : SqlValue → Option String
  | SqlValue.text s => some s
  | _ => none

/-- Modelled from the spec: decoding an optional timestamp column into
`Option OffsetDateTime`: NULL decodes to `none`, text to `some`, other
stored values fail. -/
def decodeTimeOpt : SqlValue → Option (Option String)
  | SqlValue.null => some none
  | SqlValue.text s => some (some s)
  | _ => none

/-- The closure passed to `query_map` in `get_files_for_tag` (lib.rs
lines 104-112): each `row.get(i)` is followed by `.expect("SQL Error")`,
so a column that fails to decode panics with that message; otherwise the
decoded `File` is produced. -/
def decodeFile (r : RawFileRow) : POutcome File :=
  match decodeText r.filename, decodeTimeOpt r.last_seen_at, decodeTimeOpt r.orphaned_at,
      decodeTimeReq r.updated_at, decodeTimeReq r.created_at with
  | some fn, some ls, some orp, some up, some cr =>
      POutcome.ok (File.mk (FileID.mk r.id) fn ls orp up cr)
  | _, _, _, _, _ => POutcome.panic "SQL Error"

/-- The rows produced by the join `FROM file_tags INNER JOIN files ON
files.id = file_tags.file_id WHERE file_tags.tag_id = ?1`, modelled as a
nested-loop join in table order. -/
def joinRows (db : DB) (tag : TagID) : List RawFileRow :=
  (db.file_tags.filter (fun ft => decide (ft.tag_id = tag.val))).flatMap
    (fun ft => db.files.filter (fun r => decide (r.id = ft.file_id)))

/-- The collection pipeline of `get_files_for_tag` (lib.rs lines
103-117): the iterator yields, per matching row, either the row or an
engine error from stepping the statement.  Engine errors are dropped by
`.map(|result| result.ok()).flatten()`; a row that reaches the closure
is decoded by `decodeFile`, whose panic aborts the whole call. -/
def collectFiles : List (Except String RawFileRow) → POutcome (List File)
  | [] => POutcome.ok []
  | Except.error _ :: rest => collectFiles rest
  | Except.ok r :: rest =>
      match decodeFile r with
      | POutcome.panic m => POutcome.panic m
      | POutcome.ok f =>
          match collectFiles rest with
          | POutcome.panic m => POutcome.panic m
          | POutcome.ok fs => POutcome.ok (f :: fs)

/-- `App::get_files_for_tag` (lib.rs lines 91-119) on the normal path
(no engine stepping errors): every joined row reaches the closure. -/
def get_files_for_tag (db : DB) (tag : TagID) : POutcome (List File) :=
  collectFiles ((joinRows db tag).map Except.ok)

/-- One call against the façade, used to quantify over operation
sequences. -/
inductive Op where
  | createFile (name : String)
  | createTag (name : String)
  | tagFile (t : TagID) (f : FileID)
  | getFile (name : String)
  | getTag (name : String)
  | getFilesForTag (t : TagID)
deriving DecidableEq, Repr

/-- The value an operation hands back to its caller. -/
inductive Reply where
  | fileId (x : Except TaggerError FileID)
  | tagId (x : Except TaggerError TagID)
  | unitReply
  | optFileId (x : Option FileID)
  | optTagId (x : Option TagID)
  | files (x : Except TaggerError (List File))
deriving DecidableEq, Repr

/-- Dispatch one façade call on the normal environment path (no injected
engine failure), pairing the resulting database state with the reply. -/
def applyOp (db : DB) (op : Op) : POutcome (DB × Reply) :=
  match op with
  | Op.createFile n =>
      match create_file db n none with
      | Except.ok (db', id) => POutcome.ok (db', Reply.fileId (Except.ok id))
      | Except.error e => POutcome.ok (db, Reply.fileId (Except.error e))
  | Op.createTag n =>
      match create_tag db n none with
      | Except.ok (db', id) => POutcome.ok (db', Reply.tagId (Except.ok id))
      | Except.error e => POutcome.ok (db, Reply.tagId (Except.error e))
  | Op.tagFile t f =>
      match tag_file db t f none with
      | POutcome.ok db' => POutcome.ok (db', Reply.unitReply)
      | POutcome.panic m => POutcome.panic m
  | Op.getFile n =>
      match get_file db n none with
      | POutcome.ok v => POutcome.ok (db, Reply.optFileId v)
      | POutcome.panic m => POutcome.panic m
  | Op.getTag n =>
      match get_tag db n none with
      | POutcome.ok v => POutcome.ok (db, Reply.optTagId v)
      | POutcome.panic m => POutcome.panic m
  | Op.getFilesForTag t =>
      match get_files_for_tag db t with
      | POutcome.ok fs => POutcome.ok (db, Reply.files (Except.ok fs))
      | POutcome.panic m => POutcome.panic m

/-- The file identifiers handed out by `create_file` along a run of
operations, in order; a panic aborts the run. -/
def fileIdsIssued (db : DB) : List Op → List Int
  | [] => []
  | op :: rest =>
      match applyOp db op with
      | POutcome.panic _ => []
      | POutcome.ok (db', rep) =>
          (match rep with
           | Reply.fileId (Except.ok id) => [id.val]
           | _ => []) ++ fileIdsIssued db' rest

/-- The tag identifiers handed out by `create_tag` along a run. -/
def tagIdsIssued (db : DB) : List Op → List Int
  | [] => []
  | op :: rest =>
      match applyOp db op with
      | POutcome.panic _ => []
      | POutcome.ok (db', rep) =>
          (match rep with
           | Reply.tagId (Except.ok id) => [id.val]
           | _ => []) ++ tagIdsIssued db' rest

/-- The database obtained by `create_file` of `"a"` on the fresh database. -/
def dbA : DB :=
  DB.mk
    [RawFileRow.mk 1 (SqlValue.text "a") SqlValue.null SqlValue.null
      (SqlValue.text "2024-01-01 00:00:00") (SqlValue.text "2024-01-01 00:00:00")]
    [] [] "2024-01-01 00:00:00"

/-- The database obtained by `create_tag` of `"b"` on the fresh database. -/
def dbT : DB :=
  DB.mk [] [TagRow.mk 1 (SqlValue.text "b")] [] "2024-01-01 00:00:00"

/-- The database obtained by two `create_file` calls with `"a"` on the
fresh database. -/
def dbAA : DB :=
  DB.mk
    [RawFileRow.mk 1 (SqlValue.text "a") SqlValue.null SqlValue.null
      (SqlValue.text "2024-01-01 00:00:00") (SqlValue.text "2024-01-01 00:00:00"),
     RawFileRow.mk 2 (SqlValue.text "a") SqlValue.null SqlValue.null
      (SqlValue.text "2024-01-01 00:00:00") (SqlValue.text "2024-01-01 00:00:00")]
    [] [] "2024-01-01 00:00:00"

/-- Shorthand for a `files` row as created by this model, with rowid `i`
and filename `s`. -/
def mkRow (i : Int) (s : String) : RawFileRow :=
  RawFileRow.mk i (SqlValue.text s) SqlValue.null SqlValue.null
    (SqlValue.text "2024-01-01 00:00:00") (SqlValue.text "2024-01-01 00:00:00")

/-- Scenario state after creating files a and b. -/
def dbScen2 : DB := DB.mk [mkRow 1 "a", mkRow 2 "b"] [] [] "2024-01-01 00:00:00"

/-- Scenario state after creating files a, b, c. -/
def dbScen3 : DB := DB.mk [mkRow 1 "a", mkRow 2 "b", mkRow 3 "c"] [] [] "2024-01-01 00:00:00"

/-- Scenario state after additionally creating the tag. -/
def dbScen4 : DB :=
  DB.mk [mkRow 1 "a", mkRow 2 "b", mkRow 3 "c"] [TagRow.mk 1 (SqlValue.text "tag")] []
    "2024-01-01 00:00:00"

/-- Scenario state after tagging file a. -/
def dbScen5 : DB := { dbScen4 with file_tags := [AssocRow.mk 1 1] }

/-- Scenario state after tagging files a and b. -/
def dbScen6 : DB := { dbScen4 with file_tags := [AssocRow.mk 1 1, AssocRow.mk 2 1] }

/-- The decoded `File` for the row of filename a. -/
def fileA : File :=
  File.mk (FileID.mk 1) "a" none none "2024-01-01 00:00:00" "2024-01-01 00:00:00"

/-- The decoded `File` for the row of filename b. -/
def fileB : File :=
  File.mk (FileID.mk 2) "b" none none "2024-01-01 00:00:00" "2024-01-01 00:00:00"

/-- A `files` row whose required `created_at` column holds an integer
(SQLite columns are dynamically typed), so the `row.get` for that column
fails and the row cannot decode into a `File`. -/
def badRow : RawFileRow :=
  RawFileRow.mk 1 (SqlValue.text "a") SqlValue.null SqlValue.null
    (SqlValue.text "2024-01-01 00:00:00") (SqlValue.integer 0)

/-- A database with one tag associated to the undecodable `badRow`. -/
def badDB : DB :=
  DB.mk [badRow] [TagRow.mk 1 (SqlValue.text "T")] [AssocRow.mk 1 1] "2024-01-01 00:00:00"

/-- `dbA` after one association of tag 1 to file 1. -/
def dbATag1 : DB := { dbA with file_tags := [AssocRow.mk 1 1] }

/-- `dbA` after two identical associations of tag 1 to file 1. -/
def dbATag2 : DB := { dbA with file_tags := [AssocRow.mk 1 1, AssocRow.mk 1 1] }

/-! ### Helper lemmas -/

theorem foldr_max_le_init (l : List Int) (b : Int) : b ≤ l.foldr max b := by
  induction l with
  | nil => exact le_refl b
  | cons a l ih => exact le_trans ih (le_max_right a (List.foldr max b l))

theorem foldr_max_init_mono (l : List Int) (b c : Int) (h : b ≤ c) :
    l.foldr max b ≤ l.foldr max c := by
  induction l with
  | nil => exact h
  | cons a l ih => exact max_le_max (le_refl a) ih

theorem le_maxRowId_append (ids : List Int) (x : Int) : x ≤ maxRowId (ids ++ [x]) := by
  unfold maxRowId
  rw [List.foldr_append]
  exact le_trans (le_max_left x 0) (foldr_max_le_init ids (max x 0))

theorem maxRowId_append_le (ids : List Int) (x : Int) :
    maxRowId ids ≤ maxRowId (ids ++ [x]) := by
  unfold maxRowId
  rw [List.foldr_append]
  exact foldr_max_init_mono ids 0 (max x 0) (le_max_right x 0)

theorem get_file_none_of_absent (db : DB) (f : String)
    (hf : ∀ r ∈ db.files, r.filename ≠ SqlValue.text f) :
    get_file db f none = POutcome.ok none := by
  have hfind : db.files.find? (fun r => decide (r.filename = SqlValue.text f)) = none :=
    List.find?_eq_none.mpr (by intro x hx; simp [hf x hx])
  simp [get_file, hfind]

theorem get_tag_none_of_absent (db : DB) (t : String)
    (ht : ∀ r ∈ db.tags, r.name ≠ SqlValue.text t) :
    get_tag db t none = POutcome.ok none := by
  have hfind : db.tags.find? (fun r => decide (r.name = SqlValue.text t)) = none :=
    List.find?_eq_none.mpr (by intro x hx; simp [ht x hx])
  simp [get_tag, hfind]

theorem get_file_after_create (db : DB) (f : String)
    (hf : ∀ r ∈ db.files, r.filename ≠ SqlValue.text f) :
    get_file { db with files := db.files ++ [newFileRow db f] } f none =
      POutcome.ok (some (FileID.mk (nextFileRowId db))) := by
  have hnone : db.files.find? (fun r => decide (r.filename = SqlValue.text f)) = none :=
    List.find?_eq_none.mpr (by intro x hx; simp [hf x hx])
  simp [get_file, hnone, newFileRow]

theorem get_tag_after_create (db : DB) (t : String)
    (ht : ∀ r ∈ db.tags, r.name ≠ SqlValue.text t) :
    get_tag { db with tags := db.tags ++ [newTagRow db t] } t none =
      POutcome.ok (some (TagID.mk (nextTagRowId db))) := by
  have hnone : db.tags.find? (fun r => decide (r.name = SqlValue.text t)) = none :=
    List.find?_eq_none.mpr (by intro x hx; simp [ht x hx])
  simp [get_tag, hnone, newTagRow]

/-! ### Claims -/

/-- Claim C1: for every filename with no row in the `files` table,
`get_file` returns not-found, and after `create_file` succeeds,
`get_file` returns the identifier `create_file` assigned; the same round
trip holds for tags via `create_tag` and `get_tag`. -/
theorem get_after_create_round_trip (db : DB) (f t : String)
    (hf : ∀ r ∈ db.files, r.filename ≠ SqlValue.text f)
    (ht : ∀ r ∈ db.tags, r.name ≠ SqlValue.text t) :
    (get_file db f none = POutcome.ok none ∧
      ∀ db' id, create_file db f none = Except.ok (db', id) →
        get_file db' f none = POutcome.ok (some id)) ∧
    (get_tag db t none = POutcome.ok none ∧
      ∀ db' id, create_tag db t none = Except.ok (db', id) →
        get_tag db' t none = POutcome.ok (some id)) := by
  refine ⟨⟨get_file_none_of_absent db f hf, ?_⟩, get_tag_none_of_absent db t ht, ?_⟩
  · intro db' id h
    simp [create_file] at h
    obtain ⟨h1, h2⟩ := h
    subst h1
    subst h2
    exact get_file_after_create db f hf
  · intro db' id h
    simp [create_tag] at h
    obtain ⟨h1, h2⟩ := h
    subst h1
    subst h2
    exact get_tag_after_create db t ht

/-- Witness for C1 at the fresh database with filename `"a"` and tag
name `"b"`. -/
theorem get_after_create_round_trip_witness :
    get_file emptyDB "a" none = POutcome.ok none ∧
    get_file dbA "a" none = POutcome.ok (some (FileID.mk 1)) ∧
    get_tag emptyDB "b" none = POutcome.ok none ∧
    get_tag dbT "b" none = POutcome.ok (some (TagID.mk 1)) := by
  have h := get_after_create_round_trip emptyDB "a" "b" (by simp [emptyDB]) (by simp [emptyDB])
  exact ⟨h.1.1, h.1.2 dbA (FileID.mk 1) (by decide), h.2.1,
    h.2.2 dbT (TagID.mk 1) (by decide)⟩

/-- Claim C3: for a filename and a tag name with no matching row,
`get_file` and `get_tag` report not-found as a normal empty result
(`None`), not as an error and not as a panic. -/
theorem not_found_is_none (db : DB) (f t : String)
    (hf : ∀ r ∈ db.files, r.filename ≠ SqlValue.text f)
    (ht : ∀ r ∈ db.tags, r.name ≠ SqlValue.text t) :
    get_file db f none = POutcome.ok none ∧ get_tag db t none = POutcome.ok none :=
  ⟨get_file_none_of_absent db f hf, get_tag_none_of_absent db t ht⟩

/-- Witness for C3 at the fresh database. -/
theorem not_found_is_none_witness :
    get_file emptyDB "a" none = POutcome.ok none ∧
    get_tag emptyDB "b" none = POutcome.ok none :=
  not_found_is_none emptyDB "a" "b" (by simp [emptyDB]) (by simp [emptyDB])

/-- Claim C5: when the underlying insert in `tag_file` fails, `tag_file`
panics (process abort) instead of returning a recoverable error value;
its result is never an ordinary return. -/
theorem tag_file_storage_error_panics (db : DB) (t : TagID) (f : FileID) (e : String) :
    tag_file db t f (some e) = POutcome.panic ("SQL Error, " ++ e) ∧
    ∀ db', tag_file db t f (some e) ≠ POutcome.ok db' := by
  refine ⟨rfl, ?_⟩
  intro db' h
  simp [tag_file] at h

/-- Claim C6: `create_file` performs no duplicate check — called twice
with the same filename it succeeds both times, leaves two distinct rows
with that filename, and returns two distinct identifiers. -/
theorem create_file_duplicate_rows (db : DB) (f : String) (db1 db2 : DB) (id1 id2 : FileID)
    (h1 : create_file db f none = Except.ok (db1, id1))
    (h2 : create_file db1 f none = Except.ok (db2, id2)) :
    id1 ≠ id2 ∧
    db2.files = db.files ++ [newFileRow db f, newFileRow db1 f] ∧
    (newFileRow db f).filename = SqlValue.text f ∧
    (newFileRow db1 f).filename = SqlValue.text f ∧
    (newFileRow db f).id ≠ (newFileRow db1 f).id := by
  simp [create_file] at h1 h2
  obtain ⟨h1a, h1b⟩ := h1
  obtain ⟨h2a, h2b⟩ := h2
  have hmap : (db.files ++ [newFileRow db f]).map RawFileRow.id =
      db.files.map RawFileRow.id ++ [nextFileRowId db] := by
    simp [newFileRow]
  have hle : nextFileRowId db ≤ maxFileId { db with files := db.files ++ [newFileRow db f] } := by
    simp only [maxFileId]
    rw [hmap]
    exact le_maxRowId_append _ _
  have hlt : nextFileRowId db < nextFileRowId { db with files := db.files ++ [newFileRow db f] } := by
    simp only [nextFileRowId] at hle ⊢
    omega
  subst h1a
  subst h1b
  subst h2a
  subst h2b
  refine ⟨?_, by simp, by simp [newFileRow], by simp [newFileRow], ?_⟩
  · intro h
    exact ne_of_lt hlt (congrArg FileID.val h)
  · exact ne_of_lt hlt

/-- Witness for C6: two creates of `"a"` on the fresh database. -/
theorem create_file_duplicate_rows_witness :
    FileID.mk 1 ≠ FileID.mk 2 ∧
    dbAA.files = emptyDB.files ++ [newFileRow emptyDB "a", newFileRow dbA "a"] ∧
    (newFileRow emptyDB "a").filename = SqlValue.text "a" ∧
    (newFileRow dbA "a").filename = SqlValue.text "a" ∧
    (newFileRow emptyDB "a").id ≠ (newFileRow dbA "a").id :=
  create_file_duplicate_rows emptyDB "a" dbA dbAA (FileID.mk 1) (FileID.mk 2)
    (by decide) (by decide)

/-- Claim C2: from the empty database, after creating files a, b, c and
a tag, and tagging a and b only, `get_files_for_tag` returns exactly the
set of files a and b: a and b are each present, c is absent, and nothing
else appears; the order of the returned list is unconstrained. -/
theorem scenario_files_for_tag_exact :
    ∃ db1 a db2 b db3 c db4 t db5 db6 files,
      create_file emptyDB "a" none = Except.ok (db1, a) ∧
      create_file db1 "b" none = Except.ok (db2, b) ∧
      create_file db2 "c" none = Except.ok (db3, c) ∧
      create_tag db3 "tag" none = Except.ok (db4, t) ∧
      tag_file db4 t a none = POutcome.ok db5 ∧
      tag_file db5 t b none = POutcome.ok db6 ∧
      get_files_for_tag db6 t = POutcome.ok files ∧
      a ∈ files.map File.id ∧ b ∈ files.map File.id ∧ c ∉ files.map File.id ∧
      ∀ x ∈ files.map File.id, x = a ∨ x = b := by
  refine ⟨dbA, FileID.mk 1, dbScen2, FileID.mk 2, dbScen3, FileID.mk 3, dbScen4, TagID.mk 1,
    dbScen5, dbScen6, [fileA, fileB], ?_⟩
  decide

/-- Counterexample to C4 as stated: on `badDB` the single joined row
fails to decode, and `get_files_for_tag` panics instead of dropping the
row and returning the (here empty) list of successfully decoded rows. -/
theorem decode_failure_not_dropped_counterexample :
    get_files_for_tag badDB (TagID.mk 1) = POutcome.panic "SQL Error" ∧
    get_files_for_tag badDB (TagID.mk 1) ≠ POutcome.ok [] := by
  decide

theorem collectFiles_error_cons (e : String) (rest : List (Except String RawFileRow)) :
    collectFiles (Except.error e :: rest) = collectFiles rest := rfl

theorem collectFiles_cons_ok (r : RawFileRow) (rest : List (Except String RawFileRow)) :
    collectFiles (Except.ok r :: rest) =
      match decodeFile r with
      | POutcome.panic m => POutcome.panic m
      | POutcome.ok f =>
          match collectFiles rest with
          | POutcome.panic m => POutcome.panic m
          | POutcome.ok fs => POutcome.ok (f :: fs) := rfl

/-- Claim C4 amended: in the row pipeline of `get_files_for_tag`, an
item whose retrieval from the engine fails is silently dropped and the
remaining rows still produce the result; but a row that fails to decode
into a `File` makes the call panic — it is not dropped and no row list
is returned. -/
theorem decode_failure_amended (l1 l2 : List (Except String RawFileRow)) (e : String)
    (pre : List RawFileRow) (r : RawFileRow) (post : List RawFileRow) (m : String)
    (hpre : ∀ x ∈ pre, ∃ fx, decodeFile x = POutcome.ok fx)
    (hr : decodeFile r = POutcome.panic m) :
    collectFiles (l1 ++ Except.error e :: l2) = collectFiles (l1 ++ l2) ∧
    collectFiles ((pre ++ r :: post).map Except.ok) = POutcome.panic m := by
  constructor
  · induction l1 with
    | nil => rfl
    | cons x l ih =>
        cases x with
        | error e2 =>
            rw [List.cons_append, List.cons_append, collectFiles_error_cons,
              collectFiles_error_cons, ih]
        | ok rr =>
            rw [List.cons_append, List.cons_append, collectFiles_cons_ok,
              collectFiles_cons_ok, ih]
  · induction pre with
    | nil =>
        rw [List.nil_append, List.map_cons, collectFiles_cons_ok, hr]
    | cons x xs ih =>
        obtain ⟨fx, hfx⟩ := hpre x (List.mem_cons_self x xs)
        have ih2 := ih (fun y hy => hpre y (List.mem_cons_of_mem x hy))
        rw [List.cons_append, List.map_cons, collectFiles_cons_ok, hfx, ih2]

/-- Witness for the amended C4: an engine error among no other rows is
dropped, and the undecodable `badRow` makes the pipeline panic. -/
theorem decode_failure_amended_witness :
    collectFiles ([] ++ Except.error "E" :: []) = collectFiles ([] ++ []) ∧
    collectFiles (([] ++ badRow :: []).map Except.ok) = POutcome.panic "SQL Error" :=
  decode_failure_amended [] [] "E" [] badRow [] "SQL Error" (by simp) (by decide)

theorem collectFiles_append_ok (l1 l2 : List RawFileRow) (fs1 fs2 : List File)
    (h1 : collectFiles (l1.map Except.ok) = POutcome.ok fs1)
    (h2 : collectFiles (l2.map Except.ok) = POutcome.ok fs2) :
    collectFiles ((l1 ++ l2).map Except.ok) = POutcome.ok (fs1 ++ fs2) := by
  induction l1 generalizing fs1 with
  | nil =>
      simp only [List.map_nil, collectFiles] at h1
      injection h1 with h1'
      subst h1'
      simpa using h2
  | cons a l ih =>
      rw [List.map_cons, collectFiles_cons_ok] at h1
      cases hd : decodeFile a with
      | panic m =>
          rw [hd] at h1
          exact absurd h1 (by simp)
      | ok fa =>
          rw [hd] at h1
          cases hc : collectFiles (l.map Except.ok) with
          | panic m =>
              rw [hc] at h1
              exact absurd h1 (by simp)
          | ok fsl =>
              rw [hc] at h1
              injection h1 with h1'
              subst h1'
              rw [List.cons_append, List.map_cons, collectFiles_cons_ok, hd, ih fsl hc]
              rfl

/-- Claim C9 (read with `f` the identifier of a file that exists and
decodes): `tag_file` performs no duplicate check on associations —
tagging the same file with the same tag twice inserts two association
rows, and `get_files_for_tag` then returns that file twice, counting
association multiplicity. -/
theorem tag_file_twice_multiplicity (db : DB) (t : TagID) (f : FileID)
    (r : RawFileRow) (fv : File) (fs : List File) (db1 db2 : DB)
    (hrow : db.files.filter (fun x => decide (x.id = f.val)) = [r])
    (hdec : decodeFile r = POutcome.ok fv)
    (hok : get_files_for_tag db t = POutcome.ok fs)
    (h1 : tag_file db t f none = POutcome.ok db1)
    (h2 : tag_file db1 t f none = POutcome.ok db2) :
    db2.file_tags = db.file_tags ++ [AssocRow.mk f.val t.val, AssocRow.mk f.val t.val] ∧
    get_files_for_tag db2 t = POutcome.ok (fs ++ [fv, fv]) := by
  simp only [tag_file] at h1 h2
  injection h1 with h1'
  subst h1'
  injection h2 with h2'
  subst h2'
  constructor
  · simp
  · have hjoin : joinRows { db with
        file_tags := db.file_tags ++ [AssocRow.mk f.val t.val] ++ [AssocRow.mk f.val t.val] } t =
        joinRows db t ++ [r, r] := by
      simp [joinRows, hrow]
    have hrr : collectFiles ([r, r].map Except.ok) = POutcome.ok [fv, fv] := by
      simp [collectFiles, hdec]
    have hok' : collectFiles ((joinRows db t).map Except.ok) = POutcome.ok fs := hok
    show collectFiles _ = _
    rw [hjoin]
    exact collectFiles_append_ok (joinRows db t) [r, r] fs [fv, fv] hok' hrr

/-- Witness for C9 on the one-file database `dbA`. -/
theorem tag_file_twice_multiplicity_witness :
    dbATag2.file_tags = dbA.file_tags ++ [AssocRow.mk 1 1, AssocRow.mk 1 1] ∧
    get_files_for_tag dbATag2 (TagID.mk 1) = POutcome.ok ([] ++ [fileA, fileA]) :=
  tag_file_twice_multiplicity dbA (TagID.mk 1) (FileID.mk 1) (mkRow 1 "a") fileA [] dbATag1
    dbATag2 (by decide) (by decide) (by decide) (by decide) (by decide)

/-! ### Run traces and frame lemmas -/

theorem applyOp_createFile (db : DB) (n : String) :
    applyOp db (Op.createFile n) =
      POutcome.ok ({ db with files := db.files ++ [newFileRow db n] },
        Reply.fileId (Except.ok (FileID.mk (nextFileRowId db)))) := rfl

theorem applyOp_createTag (db : DB) (n : String) :
    applyOp db (Op.createTag n) =
      POutcome.ok ({ db with tags := db.tags ++ [newTagRow db n] },
        Reply.tagId (Except.ok (TagID.mk (nextTagRowId db)))) := rfl

theorem applyOp_tagFile (db : DB) (t : TagID) (f : FileID) :
    applyOp db (Op.tagFile t f) =
      POutcome.ok ({ db with file_tags := db.file_tags ++ [AssocRow.mk f.val t.val] },
        Reply.unitReply) := rfl

theorem maxFileId_le_extend (db : DB) (r : RawFileRow) :
    maxFileId db ≤ maxFileId { db with files := db.files ++ [r] } := by
  simp only [maxFileId, List.map_append, List.map_cons, List.map_nil]
  exact maxRowId_append_le _ _

theorem maxTagId_le_extend (db : DB) (r : TagRow) :
    maxTagId db ≤ maxTagId { db with tags := db.tags ++ [r] } := by
  simp only [maxTagId, List.map_append, List.map_cons, List.map_nil]
  exact maxRowId_append_le _ _

theorem nextFileRowId_le_after_create (db : DB) (n : String) :
    nextFileRowId db ≤ maxFileId { db with files := db.files ++ [newFileRow db n] } := by
  simp only [maxFileId, List.map_append, List.map_cons, List.map_nil, newFileRow]
  exact le_maxRowId_append _ _

theorem nextTagRowId_le_after_create (db : DB) (n : String) :
    nextTagRowId db ≤ maxTagId { db with tags := db.tags ++ [newTagRow db n] } := by
  simp only [maxTagId, List.map_append, List.map_cons, List.map_nil, newTagRow]
  exact le_maxRowId_append _ _

theorem fileIdsIssued_createFile (db : DB) (n : String) (rest : List Op) :
    fileIdsIssued db (Op.createFile n :: rest) =
      nextFileRowId db ::
        fileIdsIssued { db with files := db.files ++ [newFileRow db n] } rest := rfl

theorem fileIdsIssued_createTag (db : DB) (n : String) (rest : List Op) :
    fileIdsIssued db (Op.createTag n :: rest) =
      fileIdsIssued { db with tags := db.tags ++ [newTagRow db n] } rest := rfl

theorem fileIdsIssued_tagFile (db : DB) (t : TagID) (f : FileID) (rest : List Op) :
    fileIdsIssued db (Op.tagFile t f :: rest) =
      fileIdsIssued { db with file_tags := db.file_tags ++ [AssocRow.mk f.val t.val] }
        rest := rfl

theorem fileIdsIssued_getFile (db : DB) (n : String) (rest : List Op) :
    fileIdsIssued db (Op.getFile n :: rest) = fileIdsIssued db rest := by
  cases hg : db.files.find? (fun r => decide (r.filename = SqlValue.text n)) with
  | none => simp [fileIdsIssued, applyOp, get_file, hg]
  | some r => simp [fileIdsIssued, applyOp, get_file, hg]

theorem fileIdsIssued_getTag (db : DB) (n : String) (rest : List Op) :
    fileIdsIssued db (Op.getTag n :: rest) = fileIdsIssued db rest := by
  cases hg : db.tags.find? (fun r => decide (r.name = SqlValue.text n)) with
  | none => simp [fileIdsIssued, applyOp, get_tag, hg]
  | some r => simp [fileIdsIssued, applyOp, get_tag, hg]

theorem fileIdsIssued_getFilesForTag (db : DB) (t : TagID) (rest : List Op) :
    fileIdsIssued db (Op.getFilesForTag t :: rest) =
      match get_files_for_tag db t with
      | POutcome.ok _ => fileIdsIssued db rest
      | POutcome.panic _ => [] := by
  cases hg : get_files_for_tag db t with
  | ok fs => simp [fileIdsIssued, applyOp, hg]
  | panic m => simp [fileIdsIssued, applyOp, hg]

theorem tagIdsIssued_createFile (db : DB) (n : String) (rest : List Op) :
    tagIdsIssued db (Op.createFile n :: rest) =
      tagIdsIssued { db with files := db.files ++ [newFileRow db n] } rest := rfl

theorem tagIdsIssued_createTag (db : DB) (n : String) (rest : List Op) :
    tagIdsIssued db (Op.createTag n :: rest) =
      nextTagRowId db ::
        tagIdsIssued { db with tags := db.tags ++ [newTagRow db n] } rest := rfl

theorem tagIdsIssued_tagFile (db : DB) (t : TagID) (f : FileID) (rest : List Op) :
    tagIdsIssued db (Op.tagFile t f :: rest) =
      tagIdsIssued { db with file_tags := db.file_tags ++ [AssocRow.mk f.val t.val] }
        rest := rfl

theorem tagIdsIssued_getFile (db : DB) (n : String) (rest : List Op) :
    tagIdsIssued db (Op.getFile n :: rest) = tagIdsIssued db rest := by
  cases hg : db.files.find? (fun r => decide (r.filename = SqlValue.text n)) with
  | none => simp [tagIdsIssued, applyOp, get_file, hg]
  | some r => simp [tagIdsIssued, applyOp, get_file, hg]

theorem tagIdsIssued_getTag (db : DB) (n : String) (rest : List Op) :
    tagIdsIssued db (Op.getTag n :: rest) = tagIdsIssued db rest := by
  cases hg : db.tags.find? (fun r => decide (r.name = SqlValue.text n)) with
  | none => simp [tagIdsIssued, applyOp, get_tag, hg]
  | some r => simp [tagIdsIssued, applyOp, get_tag, hg]

theorem tagIdsIssued_getFilesForTag (db : DB) (t : TagID) (rest : List Op) :
    tagIdsIssued db (Op.getFilesForTag t :: rest) =
      match get_files_for_tag db t with
      | POutcome.ok _ => tagIdsIssued db rest
      | POutcome.panic _ => [] := by
  cases hg : get_files_for_tag db t with
  | ok fs => simp [tagIdsIssued, applyOp, hg]
  | panic m => simp [tagIdsIssued, applyOp, hg]

theorem fileIdsIssued_bound (ops : List Op) :
    ∀ db : DB, ∀ i ∈ fileIdsIssued db ops, maxFileId db < i := by
  induction ops with
  | nil => intro db i hi; simp [fileIdsIssued] at hi
  | cons op rest ih =>
      intro db i hi
      cases op with
      | createFile n =>
          rw [fileIdsIssued_createFile] at hi
          rcases List.mem_cons.mp hi with h | h
          · rw [h]
            simp only [nextFileRowId]
            omega
          · have h2 := ih _ i h
            have h3 := maxFileId_le_extend db (newFileRow db n)
            omega
      | createTag n =>
          rw [fileIdsIssued_createTag] at hi
          exact ih { db with tags := db.tags ++ [newTagRow db n] } i hi
      | tagFile t f =>
          rw [fileIdsIssued_tagFile] at hi
          exact ih { db with file_tags := db.file_tags ++ [AssocRow.mk f.val t.val] } i hi
      | getFile n =>
          rw [fileIdsIssued_getFile] at hi
          exact ih _ i hi
      | getTag n =>
          rw [fileIdsIssued_getTag] at hi
          exact ih _ i hi
      | getFilesForTag t =>
          rw [fileIdsIssued_getFilesForTag] at hi
          cases hg : get_files_for_tag db t with
          | ok fs => rw [hg] at hi; exact ih _ i hi
          | panic m => rw [hg] at hi; simp at hi

theorem tagIdsIssued_bound (ops : List Op) :
    ∀ db : DB, ∀ i ∈ tagIdsIssued db ops, maxTagId db < i := by
  induction ops with
  | nil => intro db i hi; simp [tagIdsIssued] at hi
  | cons op rest ih =>
      intro db i hi
      cases op with
      | createFile n =>
          rw [tagIdsIssued_createFile] at hi
          exact ih { db with files := db.files ++ [newFileRow db n] } i hi
      | createTag n =>
          rw [tagIdsIssued_createTag] at hi
          rcases List.mem_cons.mp hi with h | h
          · rw [h]
            simp only [nextTagRowId]
            omega
          · have h2 := ih _ i h
            have h3 := maxTagId_le_extend db (newTagRow db n)
            omega
      | tagFile t f =>
          rw [tagIdsIssued_tagFile] at hi
          exact ih { db with file_tags := db.file_tags ++ [AssocRow.mk f.val t.val] } i hi
      | getFile n =>
          rw [tagIdsIssued_getFile] at hi
          exact ih _ i hi
      | getTag n =>
          rw [tagIdsIssued_getTag] at hi
          exact ih _ i hi
      | getFilesForTag t =>
          rw [tagIdsIssued_getFilesForTag] at hi
          cases hg : get_files_for_tag db t with
          | ok fs => rw [hg] at hi; exact ih _ i hi
          | panic m => rw [hg] at hi; simp at hi

theorem fileIdsIssued_pairwise_lt (ops : List Op) :
    ∀ db : DB, (fileIdsIssued db ops).Pairwise (fun a b => a < b) := by
  induction ops with
  | nil => intro db; simp [fileIdsIssued]
  | cons op rest ih =>
      intro db
      cases op with
      | createFile n =>
          rw [fileIdsIssued_createFile]
          refine List.Pairwise.cons ?_ (ih _)
          intro j hj
          have h2 := fileIdsIssued_bound rest _ j hj
          have h3 := nextFileRowId_le_after_create db n
          omega
      | createTag n => rw [fileIdsIssued_createTag]; exact ih _
      | tagFile t f => rw [fileIdsIssued_tagFile]; exact ih _
      | getFile n => rw [fileIdsIssued_getFile]; exact ih _
      | getTag n => rw [fileIdsIssued_getTag]; exact ih _
      | getFilesForTag t =>
          rw [fileIdsIssued_getFilesForTag]
          cases hg : get_files_for_tag db t with
          | ok fs => exact ih _
          | panic m => exact List.Pairwise.nil

theorem tagIdsIssued_pairwise_lt (ops : List Op) :
    ∀ db : DB, (tagIdsIssued db ops).Pairwise (fun a b => a < b) := by
  induction ops with
  | nil => intro db; simp [tagIdsIssued]
  | cons op rest ih =>
      intro db
      cases op with
      | createFile n => rw [tagIdsIssued_createFile]; exact ih _
      | createTag n =>
          rw [tagIdsIssued_createTag]
          refine List.Pairwise.cons ?_ (ih _)
          intro j hj
          have h2 := tagIdsIssued_bound rest _ j hj
          have h3 := nextTagRowId_le_after_create db n
          omega
      | tagFile t f => rw [tagIdsIssued_tagFile]; exact ih _
      | getFile n => rw [tagIdsIssued_getFile]; exact ih _
      | getTag n => rw [tagIdsIssued_getTag]; exact ih _
      | getFilesForTag t =>
          rw [tagIdsIssued_getFilesForTag]
          cases hg : get_files_for_tag db t with
          | ok fs => exact ih _
          | panic m => exact List.Pairwise.nil

/-- Claim C7: within one database, identifiers are never reused: along
any sequence of façade operations from the fresh database, the file
identifiers returned by `create_file` are pairwise distinct from all
earlier ones, and likewise the tag identifiers returned by
`create_tag`. -/
theorem issued_ids_never_reused (ops : List Op) :
    (fileIdsIssued emptyDB ops).Pairwise (fun a b => a ≠ b) ∧
    (tagIdsIssued emptyDB ops).Pairwise (fun a b => a ≠ b) :=
  ⟨(fileIdsIssued_pairwise_lt ops emptyDB).imp ne_of_lt,
   (tagIdsIssued_pairwise_lt ops emptyDB).imp ne_of_lt⟩

/-- Claim C8: no façade operation deletes or modifies an existing row:
every `files`, `tags`, and `file_tags` row present before a successful
call is still present and unchanged afterwards (each old table is a
sublist of the new one). -/
theorem ops_preserve_rows (db : DB) (op : Op) (db' : DB) (rep : Reply)
    (h : applyOp db op = POutcome.ok (db', rep)) :
    List.Sublist db.files db'.files ∧ List.Sublist db.tags db'.tags ∧
      List.Sublist db.file_tags db'.file_tags := by
  cases op with
  | createFile n =>
      rw [applyOp_createFile] at h
      injection h with h'
      injection h' with h1 h2
      subst h1
      exact ⟨List.sublist_append_left _ _, List.Sublist.refl _, List.Sublist.refl _⟩
  | createTag n =>
      rw [applyOp_createTag] at h
      injection h with h'
      injection h' with h1 h2
      subst h1
      exact ⟨List.Sublist.refl _, List.sublist_append_left _ _, List.Sublist.refl _⟩
  | tagFile t f =>
      rw [applyOp_tagFile] at h
      injection h with h'
      injection h' with h1 h2
      subst h1
      exact ⟨List.Sublist.refl _, List.Sublist.refl _, List.sublist_append_left _ _⟩
  | getFile n =>
      cases hg : get_file db n none with
      | panic m => simp [applyOp, hg] at h
      | ok v =>
          simp only [applyOp, hg] at h
          injection h with h'
          injection h' with h1 h2
          subst h1
          exact ⟨List.Sublist.refl _, List.Sublist.refl _, List.Sublist.refl _⟩
  | getTag n =>
      cases hg : get_tag db n none with
      | panic m => simp [applyOp, hg] at h
      | ok v =>
          simp only [applyOp, hg] at h
          injection h with h'
          injection h' with h1 h2
          subst h1
          exact ⟨List.Sublist.refl _, List.Sublist.refl _, List.Sublist.refl _⟩
  | getFilesForTag t =>
      cases hg : get_files_for_tag db t with
      | panic m => simp [applyOp, hg] at h
      | ok fs =>
          simp only [applyOp, hg] at h
          injection h with h'
          injection h' with h1 h2
          subst h1
          exact ⟨List.Sublist.refl _, List.Sublist.refl _, List.Sublist.refl _⟩

/-- Witness for C8: `create_file` on the fresh database preserves the
(empty) prior tables. -/
theorem ops_preserve_rows_witness :
    List.Sublist emptyDB.files dbA.files ∧ List.Sublist emptyDB.tags dbA.tags ∧
      List.Sublist emptyDB.file_tags dbA.file_tags :=
  ops_preserve_rows emptyDB (Op.createFile "a") dbA
    (Reply.fileId (Except.ok (FileID.mk 1))) (by decide)

/-- Claim C10: the lookup operations are read-only: whenever `get_file`,
`get_tag` or `get_files_for_tag` returns, the database state is exactly
what it was before the call. -/
theorem lookups_read_only (db : DB) (n m : String) (t : TagID) :
    (∀ db' rep, applyOp db (Op.getFile n) = POutcome.ok (db', rep) → db' = db) ∧
    (∀ db' rep, applyOp db (Op.getTag m) = POutcome.ok (db', rep) → db' = db) ∧
    (∀ db' rep, applyOp db (Op.getFilesForTag t) = POutcome.ok (db', rep) → db' = db) := by
  refine ⟨?_, ?_, ?_⟩
  · intro db' rep h
    cases hg : get_file db n none with
    | panic mm => simp [applyOp, hg] at h
    | ok v =>
        simp only [applyOp, hg] at h
        injection h with h'
        injection h' with h1 h2
        exact h1.symm
  · intro db' rep h
    cases hg : get_tag db m none with
    | panic mm => simp [applyOp, hg] at h
    | ok v =>
        simp only [applyOp, hg] at h
        injection h with h'
        injection h' with h1 h2
        exact h1.symm
  · intro db' rep h
    cases hg : get_files_for_tag db t with
    | panic mm => simp [applyOp, hg] at h
    | ok fs =>
        simp only [applyOp, hg] at h
        injection h with h'
        injection h' with h1 h2
        exact h1.symm

/-- Witness for C10 on the fresh database. -/
theorem lookups_read_only_witness :
    emptyDB = emptyDB ∧ emptyDB = emptyDB ∧ emptyDB = emptyDB :=
  ⟨(lookups_read_only emptyDB "a" "b" (TagID.mk 1)).1 emptyDB (Reply.optFileId none)
      (by decide),
   (lookups_read_only emptyDB "a" "b" (TagID.mk 1)).2.1 emptyDB (Reply.optTagId none)
      (by decide),
   (lookups_read_only emptyDB "a" "b" (TagID.mk 1)).2.2 emptyDB
      (Reply.files (Except.ok [])) (by decide)⟩
